import Mathlib

/-!
Verification development for the go-thumbnail package (thumbnail.go).

The Go code is shallowly embedded: pure path computations become Lean
functions, the external collaborators (the imgconv codec/resize library,
os.MkdirAll, file writes) become an explicit oracle world that is threaded
through every operation, and Go panics become an explicit `panik` outcome
that the `defer`/`recover` blocks of the entry points translate back into
ordinary error values, exactly as the source does.
-/

namespace GoThumb

/-! ## Go path/filepath primitives (external collaborators)

These model the Go standard library functions `filepath.Clean`,
`filepath.Base`, `filepath.Dir` and the two-argument form of
`filepath.Join` on a Unix separator, which is how thumbnail.go uses them.
-/

/-- Splits a character list at `'/'` separators (the components of a Unix
path, empty components included). -/
def splitSlashAux : List Char → List Char → List (List Char)
  | [], acc => [acc.reverse]
  | c :: cs, acc =>
    if c = '/' then acc.reverse :: splitSlashAux cs []
    else splitSlashAux cs (c :: acc)

def splitSlash (s : String) : List String :=
  (splitSlashAux s.toList []).map String.mk

/-- Joins path components with `'/'` separators. -/
def joinSlash : List String → String
  | [] => ""
  | [s] => s
  | s :: rest => s ++ "/" ++ joinSlash rest

/-- Whether a Unix path is rooted (begins with `'/'`). -/
def isRooted (s : String) : Bool :=
  match s.toList with
  | '/' :: _ => true
  | _ => false

/-- One step of the lexical cleaning loop of Go's `filepath.Clean`:
empty components and `.` are dropped, `..` pops a poppable element from the
stack (or is kept when nothing can be popped in a relative path, or dropped
at the root of a rooted path), anything else is pushed. -/
def cleanStep (rooted : Bool) (stack : List String) (comp : String) : List String :=
  if comp = "" ∨ comp = "." then stack
  else if comp = ".." then
    match stack with
    | [] => if rooted then [] else [".."]
    | top :: rest => if top = ".." then ".." :: top :: rest else rest
  else comp :: stack

/-- Reassembles a cleaned component stack into the final path of Go's
`filepath.Clean`: an empty result is `"/"` for a rooted path and `"."`
otherwise. -/
def goCleanBody (rooted : Bool) (body : String) : String :=
  if rooted then (if body = "" then "/" else "/" ++ body)
  else (if body = "" then "." else body)

/-- Go `filepath.Clean` (Unix): lexical simplification of a path. -/
def goClean (path : String) : String :=
  if path = "" then "."
  else goCleanBody (isRooted path)
    (joinSlash ((splitSlash path).foldl (cleanStep (isRooted path)) []).reverse)

/-- The element of a trailing-slash-stripped path after its last slash
(`"/"` when the stripped path is empty, i.e. the input was all slashes). -/
def baseName (stripped : List Char) : String :=
  if (stripped.reverse.takeWhile (fun c => c ≠ '/')).reverse = ([] : List Char) then "/"
  else String.mk (stripped.reverse.takeWhile (fun c => c ≠ '/')).reverse

/-- Go `filepath.Base` (Unix): last element of the path after stripping
trailing slashes; `"."` for the empty path, `"/"` for an all-slash path. -/
def goBase (path : String) : String :=
  if path = "" then "."
  else baseName ((path.toList.reverse.dropWhile (fun c => c = '/')).reverse)

/-- Go `filepath.Dir` (Unix): everything up to and including the final
slash, cleaned. -/
def goDir (path : String) : String :=
  goClean (String.mk ((path.toList.reverse.dropWhile (fun c => c ≠ '/')).reverse))

/-- Go `filepath.Join` restricted to the two-argument calls made by
thumbnail.go: empty elements are skipped and the result is cleaned;
joining two empty strings gives the empty string. -/
def goJoin (a b : String) : String :=
  if a = "" then (if b = "" then "" else goClean b)
  else goClean (a ++ "/" ++ b)

example : goClean "a//b/" = "a/b" := by decide
example : goClean "/.." = "/" := by decide
example : goBase "/tmp/c.png" = "c.png" := by decide
example : goJoin "" "p-a.png" = "p-a.png" := by decide
example : goJoin "/out" "p-a.png" = "/out/p-a.png" := by decide

/-! ## Data model (thumbnail.go types) -/

/-- Go error values reachable from thumbnail.go. `pathError` stands for a
`*fs.PathError` (the dynamic type `imgconv.Save` reports for file-open
failures, with a flag recording whether the underlying reason is a missing
directory); `ioError` stands for any error value of a different dynamic
type (e.g. an encoder failure built with `errors.New`); `failedWrite`
models the `fmt.Errorf("failed to write image: %v", err)` wrapper and
`recovered` the `fmt.Errorf("recovered from panic: %v", r)` wrapper. -/
inductive GoError where
  | errInvalidMimeType
  | errInvalidImageData
  | errInvalidNoTransformProvided
  | errInvalidScaler
  | pathError (notExist : Bool) (msg : String)
  | ioError (msg : String)
  | failedWrite (inner : GoError)
  | recovered (msg : String)
  deriving DecidableEq

/-- The fields of `imgconv.ResizeOption` that thumbnail.go sets (Go zero
values when unset). `percent` is Go `float64`, modelled as ℚ: the code
only compares it against 0 and hands it to the external engine. -/
structure ResizeOption where
  width : Int := 0
  height : Int := 0
  percent : ℚ := 0
  deriving DecidableEq

/-- Decoded pixel data (`image.Image`), modelled as a free algebra over
the external resize engine: a decoded source is opaque, and
`imgconv.Resize` produces a new value recording its input and the option
it was called with. -/
inductive ImageData where
  | src (id : Nat)
  | resized (base : ImageData) (opt : ResizeOption)
  deriving DecidableEq

structure ImageSize where
  Width : Int
  Height : Int
  deriving DecidableEq

/-- The `Image` struct. A Go `*Image` is `Option Image` at the entry
points that nil-check it; `ImageData = none` models a nil `image.Image`. -/
structure Image where
  Path : String
  ImageData : Option ImageData
  Size : ImageSize
  TargetDimension : ImageSize
  deriving DecidableEq

/-- The `ImageDimension` struct (one output dimension specification). -/
structure ImageDimension where
  Width : Int := 0
  Height : Int := 0
  Percentage : ℚ := 0
  Prefix : String := ""
  Name : String := ""
  DestinationOverride : String := ""
  deriving DecidableEq

/-- The `GenerationResult` struct. -/
structure GenerationResult where
  Filename : String
  Path : String
  Error : Option GoError := none
  deriving DecidableEq

/-- The `Generator` struct. `PreferredFormat` is opaque to every decision
in the code and is carried as a plain tag. -/
structure Generator where
  Width : Int := 0
  Height : Int := 0
  PreferredFormat : String := "jpeg"
  Name : String := ""
  DestinationPath : String := ""
  Prefix : String := ""
  OutputFormats : List ImageDimension := []
  deriving DecidableEq

def DefaultThumbnailPercentage : ℚ := 2/5

def DefaultThumbnailSize : ImageSize := { Width := 220, Height := 220 }

/-- Outcome of running a piece of Go code: a normal value, a returned
error, or a propagating panic. -/
inductive Outcome (α : Type) where
  | ok (a : α)
  | err (e : GoError)
  | panik (msg : String)
  deriving DecidableEq

/-- The `defer func() { if r := recover(); r != nil { err = fmt.Errorf(
"recovered from panic: %v", r) } }()` wrapper that every public resize and
save entry point installs: a panic becomes an ordinary error value. -/
def recoverOutcome {α : Type} : Outcome α → Except GoError α
  | .ok a => .ok a
  | .err e => .error e
  | .panik m => .error (.recovered m)

/-- The oracle world for the external collaborators. `saveOutcomes`,
`mkdirOutcomes` and `resizeFaults` prescribe the outcomes of the
successive calls to `imgconv.Save`, `os.MkdirAll` and `imgconv.Resize`
(an exhausted list means success); `openResult` prescribes what
`imgconv.Open` yields per path (source id and bounds). `writes` and
`mkdirs` are observation traces of the paths handed to `imgconv.Save`
and `os.MkdirAll`. -/
structure World where
  saveOutcomes : List (Outcome Unit)
  mkdirOutcomes : List (Option GoError)
  resizeFaults : List (Option String)
  openResult : String → Except GoError (Nat × Int × Int)
  writes : List String
  mkdirs : List String

/-- External `imgconv.Resize`: returns the resized pixels, or raises a
runtime fault when the oracle prescribes one. It never returns an error. -/
def imgconvResize (w : World) (data : ImageData) (opt : ResizeOption) :
    Outcome ImageData × World :=
  match w.resizeFaults with
  | [] => (.ok (.resized data opt), w)
  | none :: rest => (.ok (.resized data opt), { w with resizeFaults := rest })
  | some m :: rest => (.panik m, { w with resizeFaults := rest })

/-- External `imgconv.Save(output, base, option)`: outcome prescribed by
the oracle; the attempted output path is recorded in the write trace. -/
def imgconvSave (w : World) (output : String) (_data : ImageData)
    (_format : String) : Outcome Unit × World :=
  let o := match w.saveOutcomes with
           | [] => .ok ()
           | r :: _ => r
  (o, { w with saveOutcomes := w.saveOutcomes.tail,
               writes := w.writes ++ [output] })

/-- External `os.MkdirAll(dirPath, 0755)`: outcome prescribed by the
oracle; the directory path is recorded in the trace. -/
def mkdirAll (w : World) (dirPath : String) : Option GoError × World :=
  let o := match w.mkdirOutcomes with
           | [] => none
           | r :: _ => r
  (o, { w with mkdirOutcomes := w.mkdirOutcomes.tail,
               mkdirs := w.mkdirs ++ [dirPath] })

/-! ## Operations (thumbnail.go functions, current version) -/

/-- Message of the panic raised by the unchecked type assertion
`err.(*fs.PathError)` in `saveInternal` when the error has a different
dynamic type. -/
def typeAssertFault : String := "interface conversion: error is not *fs.PathError"

/-- The body of `CreateThumbnail(i *Image, dimension ImageDimension)`
before its `recover` wrapper: nil checks, then the first-match-wins
selection of the resize mode, as written in the source. -/
def CreateThumbnailRaw (w : World) (i : Option Image)
    (dimension : ImageDimension) : Outcome ImageData × World :=
  match i with
  | none => (.err .errInvalidImageData, w)
  | some img =>
    match img.ImageData with
    | none => (.err .errInvalidImageData, w)
    | some data =>
      if 0 < dimension.Percentage then
        imgconvResize w data { percent := dimension.Percentage }
      else if 0 < dimension.Width ∧ 0 < dimension.Height then
        imgconvResize w data { width := dimension.Width, height := dimension.Height }
      else if 0 < dimension.Width then
        imgconvResize w data { width := dimension.Width }
      else if 0 < dimension.Height then
        imgconvResize w data { height := dimension.Height }
      else
        (.err .errInvalidNoTransformProvided, w)

/-- `CreateThumbnail`: the body guarded by the `defer`/`recover` block. -/
def CreateThumbnail (w : World) (i : Option Image)
    (dimension : ImageDimension) : Except GoError ImageData × World :=
  let t := CreateThumbnailRaw w i dimension
  (recoverOutcome t.1, t.2)

/-- `(gen *Generator) GetProcessedImage` simply delegates to
`CreateThumbnail`; the receiver is unused. -/
def GetProcessedImage (_gen : Generator) (w : World) (i : Option Image)
    (dimension : ImageDimension) : Except GoError ImageData × World :=
  CreateThumbnail w i dimension

/-- `saveInternal(output, base, option)`: one write attempt; on error the
code runs the unchecked type assertion `err.(*fs.PathError)` (a panic for
any non-PathError), and, when no retry happened yet, calls
`os.MkdirAll(filepath.Dir(output), 0755)` (its error is ignored) and
retries exactly once. A second PathError failure is returned unmodified.
There is no `recover` here. -/
def saveInternal (w : World) (output : String) (base : ImageData)
    (format : String) : Outcome Unit × World :=
  let t1 := imgconvSave w output base format
  match t1.1 with
  | .ok _ => (.ok (), t1.2)
  | .panik m => (.panik m, t1.2)
  | .err e1 =>
    match e1 with
    | .pathError _ _ =>
      let t2 := mkdirAll t1.2 (goDir output)
      let t3 := imgconvSave t2.2 output base format
      match t3.1 with
      | .ok _ => (.ok (), t3.2)
      | .panik m => (.panik m, t3.2)
      | .err e2 =>
        match e2 with
        | .pathError b m => (.err (.pathError b m), t3.2)
        | _ => (.panik typeAssertFault, t3.2)
    | _ => (.panik typeAssertFault, t1.2)

/-- The body of `(gen *Generator) Save(i *Image)` before its `recover`
wrapper: the filename is `filepath.Base(i.Path)`, overridden by a
non-empty `gen.Name`; the file goes to
`filepath.Join(gen.DestinationPath, gen.Prefix+basefileName)`. -/
def SaveBody (gen : Generator) (w : World) (i : Option Image) :
    Outcome GenerationResult × World :=
  match i with
  | none => (.err .errInvalidImageData, w)
  | some img =>
    match img.ImageData with
    | none => (.err .errInvalidImageData, w)
    | some data =>
      let basefileName := if 0 < gen.Name.length then gen.Name else goBase img.Path
      let destpath := goJoin gen.DestinationPath (gen.Prefix ++ basefileName)
      let t := saveInternal w destpath data gen.PreferredFormat
      match t.1 with
      | .ok _ => (.ok { Filename := basefileName, Path := destpath, Error := none }, t.2)
      | .err e => (.err (.failedWrite e), t.2)
      | .panik m => (.panik m, t.2)

/-- `Save`: the body guarded by the `defer`/`recover` block. -/
def Save (gen : Generator) (w : World) (i : Option Image) :
    Except GoError GenerationResult × World :=
  let t := SaveBody gen w i
  (recoverOutcome t.1, t.2)

/-- The body of `(gen *Generator) SaveWithDimension(i, imgConf)` before
its `recover` wrapper, exactly as in the source: the prefix falls back
from the spec to the generator; the base filename falls back from
`filepath.Base(imgConf.Name)` to `filepath.Base(i.Path)` (the generator's
`Name` is not consulted); a non-empty `DestinationOverride` is stored in
`destpath` and leaves `directoryPath` empty, otherwise `directoryPath` is
`gen.DestinationPath` and `destpath` stays empty; the file is written to
`filepath.Join(directoryPath, prefix+basefileName)` in all cases, and the
result reports `basefileName` and `destpath`. -/
def SaveWithDimensionBody (gen : Generator) (w : World) (i : Option Image)
    (imgConf : Option ImageDimension) : Outcome GenerationResult × World :=
  match i with
  | none => (.err .errInvalidImageData, w)
  | some img =>
    match img.ImageData, imgConf with
    | none, _ => (.err .errInvalidImageData, w)
    | some _, none => (.err .errInvalidImageData, w)
    | some data, some conf =>
      let pfx := if 0 < conf.Prefix.length then conf.Prefix else gen.Prefix
      let basefileName := if 0 < conf.Name.length then goBase conf.Name else goBase img.Path
      let destpath := if 0 < conf.DestinationOverride.length then conf.DestinationOverride else ""
      let directoryPath := if 0 < conf.DestinationOverride.length then "" else gen.DestinationPath
      let fileLocationPath := goJoin directoryPath (pfx ++ basefileName)
      let t := saveInternal w fileLocationPath data gen.PreferredFormat
      match t.1 with
      | .ok _ => (.ok { Filename := basefileName, Path := destpath, Error := none }, t.2)
      | .err e => (.err (.failedWrite e), t.2)
      | .panik m => (.panik m, t.2)

/-- `SaveWithDimension`: the body guarded by the `defer`/`recover` block. -/
def SaveWithDimension (gen : Generator) (w : World) (i : Option Image)
    (imgConf : Option ImageDimension) : Except GoError GenerationResult × World :=
  let t := SaveWithDimensionBody gen w i imgConf
  (recoverOutcome t.1, t.2)

/-- The body of `SaveRaw(i image.Image, path string, format ...)` before
its `recover` wrapper: nil/empty checks, then a single direct
`imgconv.Save` (no `saveInternal`, hence no directory-creation retry). -/
def SaveRawBody (w : World) (i : Option ImageData) (path : String)
    (format : String) : Outcome GenerationResult × World :=
  match i with
  | none => (.err .errInvalidImageData, w)
  | some data =>
    if path.length = 0 then (.err .errInvalidImageData, w)
    else
      let basefileName := goBase path
      let destpath := path
      let t := imgconvSave w destpath data format
      match t.1 with
      | .ok _ => (.ok { Filename := basefileName, Path := destpath, Error := none }, t.2)
      | .err e => (.err (.failedWrite e), t.2)
      | .panik m => (.panik m, t.2)

/-- `SaveRaw`: the body guarded by the `defer`/`recover` block. -/
def SaveRaw (w : World) (i : Option ImageData) (path : String)
    (format : String) : Except GoError GenerationResult × World :=
  let t := SaveRawBody w i path format
  (recoverOutcome t.1, t.2)

/-- `ImageFromFile(path)`: opens and decodes a file, recording the path,
the measured bounds, and the default target size. -/
def ImageFromFile (w : World) (path : String) : Except GoError Image :=
  match w.openResult path with
  | .error e => .error e
  | .ok info => .ok { Path := path, ImageData := some (.src info.1),
                      Size := { Width := info.2.1, Height := info.2.2 },
                      TargetDimension := DefaultThumbnailSize }

/-- `(gen *Generator) NewImageFromFilewWithDefault(path, defaultImg)`:
load the primary path; on failure, when a non-empty fallback is given,
load the fallback and — as the source reassigns `err` — return the
fallback's own error when that also fails; with no fallback the original
error is returned. On success the generator's target size is recorded. -/
def NewImageFromFilewWithDefault (gen : Generator) (w : World)
    (path defaultImg : String) : Except GoError Image :=
  match ImageFromFile w path with
  | .ok img => .ok { img with TargetDimension := { Width := gen.Width, Height := gen.Height } }
  | .error e =>
    if defaultImg ≠ "" then
      match ImageFromFile w defaultImg with
      | .ok img => .ok { img with TargetDimension := { Width := gen.Width, Height := gen.Height } }
      | .error e2 => .error e2
    else .error e

/-- The per-dimension loop of `Generate`: for each output format, resize
(via `GetProcessedImage`); on error append a result carrying the source
path as both fields and continue; on success overwrite the working
image's pixel data in place (the Go code assigns through the shared
pointer) and call `SaveWithDimension`, appending either its result or an
error result, and continue with the mutated image. -/
def GenerateLoop (gen : Generator) :
    List ImageDimension → World → Image →
    List GenerationResult × Image × World
  | [], w, img => ([], img, w)
  | outputFormat :: rest, w, img =>
    match GetProcessedImage gen w (some img) outputFormat with
    | (.error e, w1) =>
      let t := GenerateLoop gen rest w1 img
      ({ Filename := img.Path, Path := img.Path, Error := some e } :: t.1, t.2)
    | (.ok thumbImg, w1) =>
      let img1 := { img with ImageData := some thumbImg }
      match SaveWithDimension gen w1 (some img1) (some outputFormat) with
      | (.error e, w2) =>
        let t := GenerateLoop gen rest w2 img1
        ({ Filename := img1.Path, Path := img1.Path, Error := some e } :: t.1, t.2)
      | (.ok save, w2) =>
        let t := GenerateLoop gen rest w2 img1
        (save :: t.1, t.2)

/-- `(gen *Generator) Generate(i *Image)`: aborts with
`ErrInvalidNoTransformProvided` when the configured output list is empty,
otherwise runs the loop and returns the collected results with a nil
top-level error. -/
def Generate (gen : Generator) (w : World) (i : Image) :
    Except GoError (List GenerationResult) × Image × World :=
  if gen.OutputFormats.length = 0 then (.error .errInvalidNoTransformProvided, i, w)
  else
    let t := GenerateLoop gen gen.OutputFormats w i
    (.ok t.1, t.2)

/-! ## Helper notions and concrete fixtures -/

/-- Nesting depth of resize applications in a pixel-data value. -/
def dataDepth : ImageData → Nat
  | .src _ => 0
  | .resized b _ => dataDepth b + 1

/-- Depth measure lifted to a possibly-nil pixel-data field. -/
def optDepth : Option ImageData → Nat
  | none => 0
  | some d => dataDepth d + 1

lemma resized_ne (b : ImageData) (opt : ResizeOption) : ImageData.resized b opt ≠ b := by
  intro h
  have := congrArg dataDepth h
  simp [dataDepth] at this

/-- An oracle for `imgconv.Open` that always succeeds. -/
def benignOpen : String → Except GoError (Nat × Int × Int) :=
  fun _ => .ok (0, 100, 50)

/-- A world in which every external call succeeds. -/
def benignWorld : World :=
  { saveOutcomes := [], mkdirOutcomes := [], resizeFaults := [],
    openResult := benignOpen, writes := [], mkdirs := [] }

/-- A loaded source image fixture. -/
def imgC : Image :=
  { Path := "/tmp/c.png", ImageData := some (.src 0),
    Size := { Width := 100, Height := 50 }, TargetDimension := DefaultThumbnailSize }

/-- A generator with all-default (zero-value) configuration fields. -/
def genDefault : Generator := {}

lemma string_eq_empty_iff (s : String) : s = "" ↔ s.data = [] := by
  constructor
  · intro h; rw [h]
  · intro h
    apply String.ext
    rw [h]

lemma append_slash_ne_empty (body : String) : ("/" ++ body) ≠ "" := by
  intro he
  have := (string_eq_empty_iff _).mp he
  rw [String.data_append] at this
  simp at this

lemma goCleanBody_ne_empty (rooted : Bool) (body : String) :
    goCleanBody rooted body ≠ "" := by
  unfold goCleanBody
  cases rooted with
  | false =>
    rw [if_neg (by simp)]
    split_ifs with h
    · decide
    · exact h
  | true =>
    rw [if_pos rfl]
    split_ifs with h
    · decide
    · exact append_slash_ne_empty _

lemma goClean_ne_empty (p : String) : goClean p ≠ "" := by
  unfold goClean
  split_ifs with h1
  · decide
  · exact goCleanBody_ne_empty _ _

lemma baseName_ne_empty (stripped : List Char) : baseName stripped ≠ "" := by
  unfold baseName
  split_ifs with h
  · decide
  · intro he
    exact h ((string_eq_empty_iff _).mp he)

lemma goBase_ne_empty (p : String) : goBase p ≠ "" := by
  unfold goBase
  split_ifs with h1
  · decide
  · exact baseName_ne_empty _

lemma goJoin_ne_empty (a b : String) (hb : b ≠ "") : goJoin a b ≠ "" := by
  unfold goJoin
  split_ifs with h1
  · exact goClean_ne_empty b
  · exact goClean_ne_empty _

lemma append_ne_empty_right (a b : String) (hb : b ≠ "") : (a ++ b) ≠ "" := by
  intro he
  have := (string_eq_empty_iff _).mp he
  rw [String.data_append] at this
  rcases List.append_eq_nil.mp this with ⟨-, h2⟩
  exact hb ((string_eq_empty_iff b).mpr h2)

/-! ## Characterization of saveInternal by the prescribed write outcomes -/

lemma saveInternal_empty (w : World) (out : String) (b : ImageData) (f : String)
    (hs : w.saveOutcomes = []) :
    saveInternal w out b f =
      (.ok (), { w with saveOutcomes := [], writes := w.writes ++ [out] }) := by
  obtain ⟨so, mo, rf, op, wr, mkd⟩ := w
  simp only at hs
  subst hs
  rfl

lemma saveInternal_ok_first (w : World) (out : String) (b : ImageData) (f : String)
    (rest : List (Outcome Unit)) (hs : w.saveOutcomes = .ok () :: rest) :
    saveInternal w out b f =
      (.ok (), { w with saveOutcomes := rest, writes := w.writes ++ [out] }) := by
  obtain ⟨so, mo, rf, op, wr, mkd⟩ := w
  simp only at hs
  subst hs
  rfl

lemma saveInternal_panik_first (w : World) (out : String) (b : ImageData) (f : String)
    (m : String) (rest : List (Outcome Unit)) (hs : w.saveOutcomes = .panik m :: rest) :
    saveInternal w out b f =
      (.panik m, { w with saveOutcomes := rest, writes := w.writes ++ [out] }) := by
  obtain ⟨so, mo, rf, op, wr, mkd⟩ := w
  simp only at hs
  subst hs
  rfl

lemma saveInternal_assert_first (w : World) (out : String) (b : ImageData) (f : String)
    (e1 : GoError) (rest : List (Outcome Unit)) (hs : w.saveOutcomes = .err e1 :: rest)
    (hne : ∀ ne m, e1 ≠ .pathError ne m) :
    saveInternal w out b f =
      (.panik typeAssertFault, { w with saveOutcomes := rest, writes := w.writes ++ [out] }) := by
  obtain ⟨so, mo, rf, op, wr, mkd⟩ := w
  simp only at hs
  subst hs
  cases e1 with
  | pathError ne m => exact absurd rfl (hne ne m)
  | errInvalidMimeType => rfl
  | errInvalidImageData => rfl
  | errInvalidNoTransformProvided => rfl
  | errInvalidScaler => rfl
  | ioError m => rfl
  | failedWrite e => rfl
  | recovered m => rfl

lemma saveInternal_path_first (w : World) (out : String) (b : ImageData) (f : String)
    (ne : Bool) (m : String) (rest : List (Outcome Unit))
    (hs : w.saveOutcomes = .err (.pathError ne m) :: rest) :
    saveInternal w out b f =
      ((match rest.headD (.ok ()) with
        | .ok _ => .ok ()
        | .panik m2 => .panik m2
        | .err (.pathError b2 m2) => .err (.pathError b2 m2)
        | .err _ => .panik typeAssertFault),
       { w with saveOutcomes := rest.tail,
                mkdirOutcomes := w.mkdirOutcomes.tail,
                writes := w.writes ++ [out] ++ [out],
                mkdirs := w.mkdirs ++ [goDir out] }) := by
  obtain ⟨so, mo, rf, op, wr, mkd⟩ := w
  simp only at hs
  subst hs
  cases rest with
  | nil => rfl
  | cons r2 rest2 =>
    cases r2 with
    | ok a => rfl
    | panik m2 => rfl
    | err e2 => cases e2 <;> rfl

/-- A successful `saveInternal` issued either one write or one write, one
directory creation and one more write, always at the same output path. -/
lemma saveInternal_ok_writes (w : World) (out : String) (b : ImageData) (f : String)
    (w' : World) (h : saveInternal w out b f = (.ok (), w')) :
    w'.writes = w.writes ++ [out] ∨ w'.writes = w.writes ++ [out] ++ [out] := by
  rcases hs : w.saveOutcomes with - | ⟨r1, rest⟩
  · rw [saveInternal_empty w out b f hs] at h
    injection h with h1 h2
    rw [← h2]
    left
    rfl
  · cases r1 with
    | ok a =>
      cases a
      rw [saveInternal_ok_first w out b f rest hs] at h
      injection h with h1 h2
      rw [← h2]
      left
      rfl
    | panik m =>
      rw [saveInternal_panik_first w out b f m rest hs] at h
      simp at h
    | err e1 =>
      cases he : e1 with
      | pathError ne m =>
        rw [he] at hs
        rw [saveInternal_path_first w out b f ne m rest hs] at h
        rcases hh : rest.headD (.ok ()) with a | e2 | m2 <;> rw [hh] at h
        · injection h with h1 h2
          rw [← h2]
          right
          rfl
        · cases e2 <;> simp at h
        · simp at h
      | errInvalidMimeType =>
        rw [saveInternal_assert_first w out b f e1 rest hs (by rw [he]; intro a b h; cases h)] at h
        simp at h
      | errInvalidImageData =>
        rw [saveInternal_assert_first w out b f e1 rest hs (by rw [he]; intro a b h; cases h)] at h
        simp at h
      | errInvalidNoTransformProvided =>
        rw [saveInternal_assert_first w out b f e1 rest hs (by rw [he]; intro a b h; cases h)] at h
        simp at h
      | errInvalidScaler =>
        rw [saveInternal_assert_first w out b f e1 rest hs (by rw [he]; intro a b h; cases h)] at h
        simp at h
      | ioError m =>
        rw [saveInternal_assert_first w out b f e1 rest hs (by rw [he]; intro a b h; cases h)] at h
        simp at h
      | failedWrite e =>
        rw [saveInternal_assert_first w out b f e1 rest hs (by rw [he]; intro a b h; cases h)] at h
        simp at h
      | recovered m =>
        rw [saveInternal_assert_first w out b f e1 rest hs (by rw [he]; intro a b h; cases h)] at h
        simp at h

/-! ## Characterization of SaveWithDimension -/

lemma swd_eval (gen : Generator) (w : World) (p : String) (data : ImageData)
    (sz td : ImageSize) (conf : ImageDimension) :
    SaveWithDimension gen w
        (some { Path := p, ImageData := some data, Size := sz, TargetDimension := td })
        (some conf) =
      ((match (saveInternal w
            (goJoin (if 0 < conf.DestinationOverride.length then "" else gen.DestinationPath)
              ((if 0 < conf.Prefix.length then conf.Prefix else gen.Prefix) ++
               (if 0 < conf.Name.length then goBase conf.Name else goBase p)))
            data gen.PreferredFormat).1 with
        | .ok _ => Except.ok
            { Filename := if 0 < conf.Name.length then goBase conf.Name else goBase p,
              Path := if 0 < conf.DestinationOverride.length then conf.DestinationOverride else "",
              Error := none }
        | .err e => Except.error (.failedWrite e)
        | .panik m => Except.error (.recovered m)),
       (saveInternal w
            (goJoin (if 0 < conf.DestinationOverride.length then "" else gen.DestinationPath)
              ((if 0 < conf.Prefix.length then conf.Prefix else gen.Prefix) ++
               (if 0 < conf.Name.length then goBase conf.Name else goBase p)))
            data gen.PreferredFormat).2) := by
  rcases hsi : saveInternal w
      (goJoin (if 0 < conf.DestinationOverride.length then "" else gen.DestinationPath)
        ((if 0 < conf.Prefix.length then conf.Prefix else gen.Prefix) ++
         (if 0 < conf.Name.length then goBase conf.Name else goBase p)))
      data gen.PreferredFormat with ⟨o, w2⟩
  simp only [SaveWithDimension, SaveWithDimensionBody, hsi]
  cases o <;> rfl

lemma swd_ok_spec (gen : Generator) (w : World) (img : Image) (data : ImageData)
    (conf : ImageDimension) (r : GenerationResult) (w' : World)
    (hdata : img.ImageData = some data)
    (h : SaveWithDimension gen w (some img) (some conf) = (.ok r, w')) :
    r = { Filename := if 0 < conf.Name.length then goBase conf.Name else goBase img.Path,
          Path := if 0 < conf.DestinationOverride.length then conf.DestinationOverride else "",
          Error := none } ∧
    (w'.writes = w.writes ++
        [goJoin (if 0 < conf.DestinationOverride.length then "" else gen.DestinationPath)
          ((if 0 < conf.Prefix.length then conf.Prefix else gen.Prefix) ++
           (if 0 < conf.Name.length then goBase conf.Name else goBase img.Path))] ∨
     w'.writes = w.writes ++
        [goJoin (if 0 < conf.DestinationOverride.length then "" else gen.DestinationPath)
          ((if 0 < conf.Prefix.length then conf.Prefix else gen.Prefix) ++
           (if 0 < conf.Name.length then goBase conf.Name else goBase img.Path))] ++
        [goJoin (if 0 < conf.DestinationOverride.length then "" else gen.DestinationPath)
          ((if 0 < conf.Prefix.length then conf.Prefix else gen.Prefix) ++
           (if 0 < conf.Name.length then goBase conf.Name else goBase img.Path))]) := by
  obtain ⟨p, idat, sz, td⟩ := img
  simp only at hdata
  subst hdata
  rw [swd_eval] at h
  rcases hsi : saveInternal w
      (goJoin (if 0 < conf.DestinationOverride.length then "" else gen.DestinationPath)
        ((if 0 < conf.Prefix.length then conf.Prefix else gen.Prefix) ++
         (if 0 < conf.Name.length then goBase conf.Name else goBase p)))
      data gen.PreferredFormat with ⟨o, w2⟩
  rw [hsi] at h
  cases o with
  | ok a =>
    cases a
    injection h with h1 h2
    injection h1 with h1
    subst h2
    constructor
    · exact h1.symm
    · exact saveInternal_ok_writes w _ data gen.PreferredFormat w2 hsi
  | err e => simp at h
  | panik m => simp at h

/-! ## Inversion lemmas for the resize step -/

lemma imgconvResize_fst_ok (w : World) (data : ImageData) (opt : ResizeOption)
    (t : ImageData) (h : (imgconvResize w data opt).1 = .ok t) :
    t = .resized data opt := by
  unfold imgconvResize at h
  rcases hrf : w.resizeFaults with - | ⟨of, restf⟩ <;> rw [hrf] at h
  · injection h with h1
    exact h1.symm
  · cases of with
    | none =>
      injection h with h1
      exact h1.symm
    | some m => simp at h

lemma recoverOutcome_ok {α : Type} (o : Outcome α) (a : α)
    (h : recoverOutcome o = .ok a) : o = .ok a := by
  cases o with
  | ok b =>
    have h' : (Except.ok b : Except GoError α) = Except.ok a := h
    injection h' with h1
    rw [h1]
  | err e => simp [recoverOutcome] at h
  | panik m => simp [recoverOutcome] at h

lemma createThumbnail_ok_inv (w : World) (i : Option Image) (d : ImageDimension)
    (t : ImageData) (w' : World) (h : CreateThumbnail w i d = (.ok t, w')) :
    ∃ img data opt, i = some img ∧ img.ImageData = some data ∧
      t = .resized data opt := by
  cases i with
  | none => simp [CreateThumbnail, CreateThumbnailRaw, recoverOutcome] at h
  | some img =>
    rcases hid : img.ImageData with - | data
    · simp [CreateThumbnail, CreateThumbnailRaw, hid, recoverOutcome] at h
    · have hr : recoverOutcome (CreateThumbnailRaw w (some img) d).1 = Except.ok t :=
        congrArg Prod.fst h
      have hro := recoverOutcome_ok _ _ hr
      unfold CreateThumbnailRaw at hro
      dsimp only at hro
      rw [hid] at hro
      dsimp only at hro
      split_ifs at hro with h1 h2 h3 h4
      all_goals exact ⟨img, data, _, rfl, hid, imgconvResize_fst_ok w data _ t hro⟩

/-! ## Structural lemmas for the Generate loop -/

lemma genLoop_length (gen : Generator) (l : List ImageDimension) :
    ∀ (w : World) (img : Image), (GenerateLoop gen l w img).1.length = l.length := by
  induction l with
  | nil => intro w img; rfl
  | cons f rest ih =>
    intro w img
    simp only [GenerateLoop]
    rcases hg : GetProcessedImage gen w (some img) f with ⟨r1, w1⟩
    cases r1 with
    | error e => simp [hg, ih]
    | ok thumb =>
      rcases hs : SaveWithDimension gen w1
          (some { img with ImageData := some thumb }) (some f) with ⟨r2, w2⟩
      cases r2 with
      | error e => simp [hg, hs, ih]
      | ok save => simp [hg, hs, ih]

lemma genLoop_path (gen : Generator) (l : List ImageDimension) :
    ∀ (w : World) (img : Image), (GenerateLoop gen l w img).2.1.Path = img.Path := by
  induction l with
  | nil => intro w img; rfl
  | cons f rest ih =>
    intro w img
    simp only [GenerateLoop]
    rcases hg : GetProcessedImage gen w (some img) f with ⟨r1, w1⟩
    cases r1 with
    | error e => simp [hg, ih]
    | ok thumb =>
      rcases hs : SaveWithDimension gen w1
          (some { img with ImageData := some thumb }) (some f) with ⟨r2, w2⟩
      cases r2 with
      | error e => simp [hg, hs, ih]
      | ok save => simp [hg, hs, ih]

lemma genLoop_append (gen : Generator) (l₁ l₂ : List ImageDimension) :
    ∀ (w : World) (img : Image),
      GenerateLoop gen (l₁ ++ l₂) w img =
        ((GenerateLoop gen l₁ w img).1 ++
           (GenerateLoop gen l₂ (GenerateLoop gen l₁ w img).2.2
              (GenerateLoop gen l₁ w img).2.1).1,
         (GenerateLoop gen l₂ (GenerateLoop gen l₁ w img).2.2
            (GenerateLoop gen l₁ w img).2.1).2) := by
  induction l₁ with
  | nil => intro w img; rfl
  | cons f rest ih =>
    intro w img
    simp only [List.cons_append, GenerateLoop]
    rcases hg : GetProcessedImage gen w (some img) f with ⟨r1, w1⟩
    cases r1 with
    | error e => simp [hg, ih]
    | ok thumb =>
      rcases hs : SaveWithDimension gen w1
          (some { img with ImageData := some thumb }) (some f) with ⟨r2, w2⟩
      cases r2 with
      | error e => simp [hg, hs, ih]
      | ok save => simp [hg, hs, ih]

lemma genLoop_depth (gen : Generator) (l : List ImageDimension) :
    ∀ (w : World) (img : Image),
      optDepth img.ImageData ≤ optDepth (GenerateLoop gen l w img).2.1.ImageData := by
  induction l with
  | nil => intro w img; exact le_refl _
  | cons f rest ih =>
    intro w img
    simp only [GenerateLoop]
    rcases hg : GetProcessedImage gen w (some img) f with ⟨r1, w1⟩
    cases r1 with
    | error e =>
      simp only [hg]
      exact ih w1 img
    | ok thumb =>
      obtain ⟨img0, data, opt, hi, hdata, ht⟩ :=
        createThumbnail_ok_inv w (some img) f thumb w1 hg
      injection hi with hi
      subst hi
      have hd1 : optDepth img.ImageData = dataDepth data + 1 := by rw [hdata]; rfl
      have hd2 : optDepth (some thumb) = dataDepth data + 2 := by rw [ht]; rfl
      rcases hs : SaveWithDimension gen w1
          (some { img with ImageData := some thumb }) (some f) with ⟨r2, w2⟩
      cases r2 with
      | error e =>
        simp only [hg, hs]
        calc optDepth img.ImageData = dataDepth data + 1 := hd1
          _ ≤ dataDepth data + 2 := by omega
          _ = optDepth ({ img with ImageData := some thumb } : Image).ImageData := hd2.symm
          _ ≤ _ := ih w2 _
      | ok save =>
        simp only [hg, hs]
        calc optDepth img.ImageData = dataDepth data + 1 := hd1
          _ ≤ dataDepth data + 2 := by omega
          _ = optDepth ({ img with ImageData := some thumb } : Image).ImageData := hd2.symm
          _ ≤ _ := ih w2 _

/-! ## Claim theorems -/

/-- C3: for every image with pixel data and every dimension specification,
the resize mode is chosen by first-match-wins precedence: a positive
percentage gives a proportional scale (only `percent` is set in the option
handed to the resize engine); else positive width and height give an exact
width-by-height resize; else positive width alone gives an
aspect-preserving resize driven by width; else positive height alone one
driven by height; and if none match, the call fails with the
no-transform-specified error. -/
theorem c3_resize_mode_precedence (w : World) (img : Image) (data : ImageData)
    (d : ImageDimension) (hdata : img.ImageData = some data)
    (hfaults : w.resizeFaults = []) :
    (0 < d.Percentage →
       CreateThumbnail w (some img) d =
         (.ok (.resized data { percent := d.Percentage }), w)) ∧
    (¬ 0 < d.Percentage → 0 < d.Width → 0 < d.Height →
       CreateThumbnail w (some img) d =
         (.ok (.resized data { width := d.Width, height := d.Height }), w)) ∧
    (¬ 0 < d.Percentage → 0 < d.Width → ¬ 0 < d.Height →
       CreateThumbnail w (some img) d =
         (.ok (.resized data { width := d.Width }), w)) ∧
    (¬ 0 < d.Percentage → ¬ 0 < d.Width → 0 < d.Height →
       CreateThumbnail w (some img) d =
         (.ok (.resized data { height := d.Height }), w)) ∧
    (¬ 0 < d.Percentage → ¬ 0 < d.Width → ¬ 0 < d.Height →
       CreateThumbnail w (some img) d =
         (.error .errInvalidNoTransformProvided, w)) := by
  refine ⟨fun hp => ?_, fun hnp hw hh => ?_, fun hnp hw hnh => ?_,
    fun hnp hnw hh => ?_, fun hnp hnw hnh => ?_⟩ <;>
    simp [CreateThumbnail, CreateThumbnailRaw, hdata, imgconvResize, hfaults,
      recoverOutcome, *]

/-- Witness for C3: a one-hundred-percent specification on a concrete
image resolves to the proportional-scale mode. -/
theorem c3_resize_mode_precedence_witness :
    CreateThumbnail benignWorld (some imgC) { Percentage := 1 } =
      (.ok (.resized (.src 0) { percent := 1 }), benignWorld) :=
  (c3_resize_mode_precedence benignWorld imgC (.src 0) { Percentage := 1 }
    rfl rfl).1 (by norm_num)

/-- C4: `Generate` returns a top-level error iff the configured list of
output dimension specifications is empty; in that case the error is the
no-transform-specified error and no results are produced; for every
non-empty list the top-level error is nil (the collected loop results are
returned) even if every individual dimension fails. -/
theorem c4_generate_error_iff_empty (gen : Generator) (w : World) (i : Image) :
    (gen.OutputFormats = [] →
       Generate gen w i = (.error .errInvalidNoTransformProvided, i, w)) ∧
    (gen.OutputFormats ≠ [] →
       (Generate gen w i).1 = .ok (GenerateLoop gen gen.OutputFormats w i).1) := by
  constructor
  · intro h
    simp [Generate, h]
  · intro h
    simp [Generate, List.length_eq_zero, h]

/-- A generator configured with exactly one (percentage) output format. -/
def genOneFormat : Generator := { OutputFormats := [{ Percentage := 1 }] }

/-- Witness for C4: the empty-configuration generator aborts with the
no-transform error, and a one-format generator returns a nil top-level
error. -/
theorem c4_generate_error_iff_empty_witness :
    Generate genDefault benignWorld imgC =
      (.error .errInvalidNoTransformProvided, imgC, benignWorld) ∧
    (Generate genOneFormat benignWorld imgC).1 =
      .ok (GenerateLoop genOneFormat genOneFormat.OutputFormats benignWorld imgC).1 :=
  ⟨(c4_generate_error_iff_empty genDefault benignWorld imgC).1 rfl,
   (c4_generate_error_iff_empty genOneFormat benignWorld imgC).2 (by decide)⟩

/-- C9: every public resize and save entry point (CreateThumbnail, Save,
SaveWithDimension, SaveRaw) intercepts a runtime fault raised inside its
body at its own boundary and returns it as the ordinary error value
`recovered m` instead of letting the fault propagate to the caller. -/
theorem c9_panics_intercepted (w : World) (gen : Generator) (i : Option Image)
    (idat : Option ImageData) (d : ImageDimension) (conf : Option ImageDimension)
    (path format m : String) :
    ((CreateThumbnailRaw w i d).1 = .panik m →
       (CreateThumbnail w i d).1 = .error (.recovered m)) ∧
    ((SaveBody gen w i).1 = .panik m →
       (Save gen w i).1 = .error (.recovered m)) ∧
    ((SaveWithDimensionBody gen w i conf).1 = .panik m →
       (SaveWithDimension gen w i conf).1 = .error (.recovered m)) ∧
    ((SaveRawBody w idat path format).1 = .panik m →
       (SaveRaw w idat path format).1 = .error (.recovered m)) := by
  refine ⟨fun h => ?_, fun h => ?_, fun h => ?_, fun h => ?_⟩
  · show recoverOutcome (CreateThumbnailRaw w i d).1 = _
    rw [h]
    rfl
  · show recoverOutcome (SaveBody gen w i).1 = _
    rw [h]
    rfl
  · show recoverOutcome (SaveWithDimensionBody gen w i conf).1 = _
    rw [h]
    rfl
  · show recoverOutcome (SaveRawBody w idat path format).1 = _
    rw [h]
    rfl

/-- A world whose next resize call and next write call both raise a
runtime fault. -/
def faultWorld : World :=
  { saveOutcomes := [.panik "boom"], mkdirOutcomes := [], resizeFaults := [some "boom"],
    openResult := benignOpen, writes := [], mkdirs := [] }

/-- Witness for C9: at a concrete faulting world all four entry points
return the recovered-panic error value. -/
theorem c9_panics_intercepted_witness :
    (CreateThumbnail faultWorld (some imgC) { Percentage := 1 }).1 =
      .error (.recovered "boom") ∧
    (Save genDefault faultWorld (some imgC)).1 = .error (.recovered "boom") ∧
    (SaveWithDimension genDefault faultWorld (some imgC) (some {})).1 =
      .error (.recovered "boom") ∧
    (SaveRaw faultWorld (some (.src 0)) "p" "jpeg").1 = .error (.recovered "boom") := by
  have T := c9_panics_intercepted faultWorld genDefault (some imgC) (some (.src 0))
    { Percentage := 1 } (some {}) "p" "jpeg" "boom"
  exact ⟨T.1 (by decide), T.2.1 (by decide), T.2.2.1 (by decide), T.2.2.2 (by decide)⟩

/-- C1 (amended): in `SaveWithDimension` (the name resolution exercised by
`Generate`) the resolved filename is the specification's name with any
path component stripped when it is non-empty, else the base name of the
image's source path; the generator configuration's default name is never
consulted (the call is invariant under changing it). -/
theorem c1_filename_resolution (gen : Generator) (w : World) (img : Image)
    (data : ImageData) (conf : ImageDimension) (r : GenerationResult) (w' : World)
    (n : String) (hdata : img.ImageData = some data)
    (h : SaveWithDimension gen w (some img) (some conf) = (.ok r, w')) :
    r.Filename = (if 0 < conf.Name.length then goBase conf.Name else goBase img.Path) ∧
    SaveWithDimension { gen with Name := n } w (some img) (some conf) =
      SaveWithDimension gen w (some img) (some conf) := by
  constructor
  · have hr := (swd_ok_spec gen w img data conf r w' hdata h).1
    rw [hr]
  · rfl

/-- Generator with only a default output name configured. -/
def genNameB : Generator := { Name := "b.png" }

/-- Counterexample to C1 as stated: with only the generator's default name
set to "b.png" and an empty specification name, SaveWithDimension resolves
the filename from the image's source path ("c.png"), not as "b.png". -/
theorem c1_filename_resolution_counterexample :
    (SaveWithDimension genNameB benignWorld (some imgC) (some {})).1 =
      .ok { Filename := "c.png", Path := "", Error := none } ∧
    ("c.png" : String) ≠ "b.png" := by
  exact ⟨rfl, by decide⟩

/-- Witness for C1's amended statement at a concrete successful save. -/
theorem c1_filename_resolution_witness :
    ({ Filename := "c.png", Path := "", Error := none } : GenerationResult).Filename =
      (if 0 < ({} : ImageDimension).Name.length then goBase ({} : ImageDimension).Name
       else goBase imgC.Path) ∧
    SaveWithDimension { genNameB with Name := "z.png" } benignWorld (some imgC) (some {}) =
      SaveWithDimension genNameB benignWorld (some imgC) (some {}) :=
  c1_filename_resolution genNameB benignWorld imgC (.src 0) {}
    { Filename := "c.png", Path := "", Error := none }
    { saveOutcomes := [], mkdirOutcomes := [], resizeFaults := [],
      openResult := benignOpen, writes := ["c.png"], mkdirs := [] }
    "z.png" rfl rfl

/-- C2 (amended): for every successful SaveWithDimension, when the
specification's destination override is non-empty the override is NOT the
write path: the file is written to the join of the EMPTY directory with
prefix+filename (the override only being reported as the result's Path),
and the result's Filename is the resolved base filename WITHOUT the
prefix; when the override is empty the write path is the generator's
destination directory joined with prefix+filename and the reported Path
is empty. -/
theorem c2_override_and_write_path (gen : Generator) (w : World) (img : Image)
    (data : ImageData) (conf : ImageDimension) (r : GenerationResult) (w' : World)
    (hdata : img.ImageData = some data)
    (h : SaveWithDimension gen w (some img) (some conf) = (.ok r, w')) :
    (0 < conf.DestinationOverride.length →
       r.Path = conf.DestinationOverride ∧
       r.Filename = (if 0 < conf.Name.length then goBase conf.Name else goBase img.Path) ∧
       (w'.writes = w.writes ++
          [goJoin "" ((if 0 < conf.Prefix.length then conf.Prefix else gen.Prefix) ++
            (if 0 < conf.Name.length then goBase conf.Name else goBase img.Path))] ∨
        w'.writes = w.writes ++
          [goJoin "" ((if 0 < conf.Prefix.length then conf.Prefix else gen.Prefix) ++
            (if 0 < conf.Name.length then goBase conf.Name else goBase img.Path))] ++
          [goJoin "" ((if 0 < conf.Prefix.length then conf.Prefix else gen.Prefix) ++
            (if 0 < conf.Name.length then goBase conf.Name else goBase img.Path))])) ∧
    (¬ 0 < conf.DestinationOverride.length →
       r.Path = "" ∧
       (w'.writes = w.writes ++
          [goJoin gen.DestinationPath
            ((if 0 < conf.Prefix.length then conf.Prefix else gen.Prefix) ++
             (if 0 < conf.Name.length then goBase conf.Name else goBase img.Path))] ∨
        w'.writes = w.writes ++
          [goJoin gen.DestinationPath
            ((if 0 < conf.Prefix.length then conf.Prefix else gen.Prefix) ++
             (if 0 < conf.Name.length then goBase conf.Name else goBase img.Path))] ++
          [goJoin gen.DestinationPath
            ((if 0 < conf.Prefix.length then conf.Prefix else gen.Prefix) ++
             (if 0 < conf.Name.length then goBase conf.Name else goBase img.Path))])) := by
  obtain ⟨hr, hw⟩ := swd_ok_spec gen w img data conf r w' hdata h
  constructor
  · intro hov
    refine ⟨by rw [hr]; simp [hov], by rw [hr], ?_⟩
    simpa [hov] using hw
  · intro hov
    refine ⟨by rw [hr]; simp [hov], ?_⟩
    simpa [hov] using hw

/-- Generator writing into the directory "/out". -/
def genOut : Generator := { DestinationPath := "/out" }

/-- Specification carrying a prefix, a name and a destination override. -/
def confOverride : ImageDimension :=
  { Prefix := "p-", Name := "a.png", DestinationOverride := "/override/x.png" }

/-- Counterexample to C2 as stated: with a non-empty destination override,
the file is written to "p-a.png" (prefix+filename joined with the empty
directory), not to the override "/override/x.png", and the reported
Filename "a.png" does not carry the prefix. -/
theorem c2_override_and_write_path_counterexample :
    (SaveWithDimension genOut benignWorld (some imgC) (some confOverride)).1 =
      .ok { Filename := "a.png", Path := "/override/x.png", Error := none } ∧
    (SaveWithDimension genOut benignWorld (some imgC) (some confOverride)).2.writes =
      ["p-a.png"] ∧
    ("p-a.png" : String) ≠ "/override/x.png" ∧
    ("a.png" : String) ≠ "p-a.png" := by
  exact ⟨rfl, rfl, by decide, by decide⟩

/-- Witness for C2's amended statement at a concrete successful save with
a destination override. -/
theorem c2_override_and_write_path_witness :
    ({ Filename := "a.png", Path := "/override/x.png", Error := none } :
        GenerationResult).Path = confOverride.DestinationOverride :=
  ((c2_override_and_write_path genOut benignWorld imgC (.src 0) confOverride
      { Filename := "a.png", Path := "/override/x.png", Error := none }
      { saveOutcomes := [], mkdirOutcomes := [], resizeFaults := [],
        openResult := benignOpen, writes := ["p-a.png"], mkdirs := [] }
      rfl rfl).1 (by decide)).1

/-- C10 (amended): for every successful SaveWithDimension the result's
Path equals the destination override when that is non-empty and the empty
string otherwise, while the file is written at the join of the directory
(the generator's DestinationPath only when the override is empty, else the
empty directory) with prefix+basefileName; in the empty-override case the
reported Path never equals the written location, and with an override the
two coincide only when the override happens to equal the cleaned
prefix+filename. -/
theorem c10_reported_path (gen : Generator) (w : World) (img : Image)
    (data : ImageData) (conf : ImageDimension) (r : GenerationResult) (w' : World)
    (hdata : img.ImageData = some data)
    (h : SaveWithDimension gen w (some img) (some conf) = (.ok r, w')) :
    r.Path = (if 0 < conf.DestinationOverride.length
              then conf.DestinationOverride else "") ∧
    (w'.writes = w.writes ++
       [goJoin (if 0 < conf.DestinationOverride.length then "" else gen.DestinationPath)
         ((if 0 < conf.Prefix.length then conf.Prefix else gen.Prefix) ++
          (if 0 < conf.Name.length then goBase conf.Name else goBase img.Path))] ∨
     w'.writes = w.writes ++
       [goJoin (if 0 < conf.DestinationOverride.length then "" else gen.DestinationPath)
         ((if 0 < conf.Prefix.length then conf.Prefix else gen.Prefix) ++
          (if 0 < conf.Name.length then goBase conf.Name else goBase img.Path))] ++
       [goJoin (if 0 < conf.DestinationOverride.length then "" else gen.DestinationPath)
         ((if 0 < conf.Prefix.length then conf.Prefix else gen.Prefix) ++
          (if 0 < conf.Name.length then goBase conf.Name else goBase img.Path))]) ∧
    (¬ 0 < conf.DestinationOverride.length →
       r.Path ≠ goJoin
         (if 0 < conf.DestinationOverride.length then "" else gen.DestinationPath)
         ((if 0 < conf.Prefix.length then conf.Prefix else gen.Prefix) ++
          (if 0 < conf.Name.length then goBase conf.Name else goBase img.Path))) := by
  obtain ⟨hr, hw⟩ := swd_ok_spec gen w img data conf r w' hdata h
  refine ⟨by rw [hr], hw, ?_⟩
  intro hov heq
  rw [hr] at heq
  simp only [if_neg hov] at heq
  have hbase : (if 0 < conf.Name.length then goBase conf.Name else goBase img.Path) ≠ "" := by
    split_ifs
    · exact goBase_ne_empty _
    · exact goBase_ne_empty _
  have hb : ((if 0 < conf.Prefix.length then conf.Prefix else gen.Prefix) ++
      (if 0 < conf.Name.length then goBase conf.Name else goBase img.Path)) ≠ "" :=
    append_ne_empty_right _ _ hbase
  exact goJoin_ne_empty gen.DestinationPath _ hb heq.symm

/-- Specification whose destination override coincides with the cleaned
prefix+filename. -/
def confCoincide : ImageDimension :=
  { Prefix := "p-", Name := "a.png", DestinationOverride := "p-a.png" }

/-- Counterexample to C10's universal "the reported Path never describes
the write location": with override "p-a.png", prefix "p-" and name
"a.png", the file is written exactly at "p-a.png", which is also the
reported Path. -/
theorem c10_reported_path_counterexample :
    (SaveWithDimension genOut benignWorld (some imgC) (some confCoincide)).1 =
      .ok { Filename := "a.png", Path := "p-a.png", Error := none } ∧
    (SaveWithDimension genOut benignWorld (some imgC) (some confCoincide)).2.writes =
      ["p-a.png"] := by
  exact ⟨rfl, rfl⟩

/-- Witness for C10's amended statement at a concrete successful save
without an override. -/
theorem c10_reported_path_witness :
    ({ Filename := "c.png", Path := "", Error := none } : GenerationResult).Path =
      (if 0 < ({} : ImageDimension).DestinationOverride.length
       then ({} : ImageDimension).DestinationOverride else "") :=
  (c10_reported_path genOut benignWorld imgC (.src 0) {}
    { Filename := "c.png", Path := "", Error := none }
    { saveOutcomes := [], mkdirOutcomes := [], resizeFaults := [],
      openResult := benignOpen, writes := ["/out/c.png"], mkdirs := [] }
    rfl rfl).1

/-- C6 (amended): in `saveInternal`, a first write failure whose error is
a `*fs.PathError` — whatever its underlying reason, not only a missing
directory — triggers one `MkdirAll` on the output's directory (whose
error is ignored) and exactly one retried write at the same path; a
second PathError failure is surfaced to the caller unmodified; a failure
whose error is not a `*fs.PathError` (on either attempt) raises a runtime
fault through the unchecked type assertion instead of being surfaced; no
more than one retry cycle is ever performed (exactly two prescribed
outcomes are consumed). -/
theorem c6_retry_behaviour (w : World) (out : String) (b : ImageData) (f : String)
    (e1 : GoError) (r2 : Outcome Unit) (rest : List (Outcome Unit))
    (h : w.saveOutcomes = .err e1 :: r2 :: rest) :
    (∀ ne m, e1 = .pathError ne m →
       (saveInternal w out b f).2.writes = w.writes ++ [out] ++ [out] ∧
       (saveInternal w out b f).2.mkdirs = w.mkdirs ++ [goDir out] ∧
       (saveInternal w out b f).2.saveOutcomes = rest ∧
       (r2 = .ok () → (saveInternal w out b f).1 = .ok ()) ∧
       (∀ ne2 m2, r2 = .err (.pathError ne2 m2) →
          (saveInternal w out b f).1 = .err (.pathError ne2 m2)) ∧
       (∀ e2, r2 = .err e2 → (∀ ne2 m2, e2 ≠ .pathError ne2 m2) →
          (saveInternal w out b f).1 = .panik typeAssertFault)) ∧
    ((∀ ne m, e1 ≠ .pathError ne m) →
       saveInternal w out b f =
         (.panik typeAssertFault,
          { w with saveOutcomes := r2 :: rest, writes := w.writes ++ [out] })) := by
  constructor
  · intro ne m he
    subst he
    have hp := saveInternal_path_first w out b f ne m (r2 :: rest) h
    rw [hp]
    refine ⟨rfl, rfl, rfl, ?_, ?_, ?_⟩
    · intro h2
      subst h2
      rfl
    · intro ne2 m2 h2
      subst h2
      rfl
    · intro e2 h2 hne
      subst h2
      cases e2 <;> first | rfl | exact absurd rfl (hne _ _)
  · intro hne
    exact saveInternal_assert_first w out b f e1 (r2 :: rest) h hne

/-- A world whose single write attempt fails with an error that is not a
`*fs.PathError` (e.g. an encoder failure). -/
def encodeFailWorld : World :=
  { saveOutcomes := [.err (.ioError "tiff: encode failed")], mkdirOutcomes := [],
    resizeFaults := [], openResult := benignOpen, writes := [], mkdirs := [] }

/-- Counterexample to C6 as stated: a first failure of a class other than
`*fs.PathError` is not surfaced to the caller unmodified — `saveInternal`
raises a runtime fault (a failed type assertion) instead, and creates no
directory. -/
theorem c6_retry_behaviour_counterexample :
    (saveInternal encodeFailWorld "out/x.jpg" (.src 0) "jpeg").1 =
      .panik typeAssertFault ∧
    (saveInternal encodeFailWorld "out/x.jpg" (.src 0) "jpeg").1 ≠
      .err (.ioError "tiff: encode failed") ∧
    (saveInternal encodeFailWorld "out/x.jpg" (.src 0) "jpeg").2.mkdirs = [] := by
  exact ⟨rfl, by decide, rfl⟩

/-- A world in which both write attempts fail with a permission
PathError, i.e. a PathError that is not a missing directory. -/
def permDeniedWorld : World :=
  { saveOutcomes := [.err (.pathError false "permission denied"),
                     .err (.pathError false "permission denied")],
    mkdirOutcomes := [], resizeFaults := [], openResult := benignOpen,
    writes := [], mkdirs := [] }

/-- Witness for C6's amended statement: a non-missing-directory PathError
still triggers the directory-creation-and-retry cycle, and the second
failure is surfaced unmodified. -/
theorem c6_retry_behaviour_witness :
    (saveInternal permDeniedWorld "/out/x.jpg" (.src 0) "jpeg").2.writes =
      [] ++ ["/out/x.jpg"] ++ ["/out/x.jpg"] ∧
    (saveInternal permDeniedWorld "/out/x.jpg" (.src 0) "jpeg").2.mkdirs =
      [] ++ [goDir "/out/x.jpg"] ∧
    (saveInternal permDeniedWorld "/out/x.jpg" (.src 0) "jpeg").1 =
      .err (.pathError false "permission denied") := by
  have T := (c6_retry_behaviour permDeniedWorld "/out/x.jpg" (.src 0) "jpeg"
    (.pathError false "permission denied")
    (.err (.pathError false "permission denied")) [] rfl).1
    false "permission denied" rfl
  exact ⟨T.1, T.2.1, T.2.2.2.2.1 false "permission denied" rfl⟩

/-- C8 (amended): `NewImageFromFilewWithDefault` returns the primary
image when the primary path loads (with the generator's target size
recorded); when the primary fails and a non-empty fallback is given the
fallback is attempted and, if it also fails, the surfaced error is the
fallback's own error (not the original); with no fallback the original
error is surfaced. -/
theorem c8_fallback_error (gen : Generator) (w : World) (path fb : String) :
    (∀ img, ImageFromFile w path = .ok img →
       NewImageFromFilewWithDefault gen w path fb =
         .ok { img with TargetDimension := { Width := gen.Width, Height := gen.Height } }) ∧
    (∀ e, ImageFromFile w path = .error e → fb ≠ "" →
       (∀ img2, ImageFromFile w fb = .ok img2 →
          NewImageFromFilewWithDefault gen w path fb =
            .ok { img2 with TargetDimension := { Width := gen.Width, Height := gen.Height } }) ∧
       (∀ e2, ImageFromFile w fb = .error e2 →
          NewImageFromFilewWithDefault gen w path fb = .error e2)) ∧
    (∀ e, ImageFromFile w path = .error e → fb = "" →
       NewImageFromFilewWithDefault gen w path fb = .error e) := by
  refine ⟨?_, ?_, ?_⟩
  · intro img h
    simp [NewImageFromFilewWithDefault, h]
  · intro e h hfb
    constructor
    · intro img2 h2
      simp [NewImageFromFilewWithDefault, h, h2, hfb]
    · intro e2 h2
      simp [NewImageFromFilewWithDefault, h, h2, hfb]
  · intro e h hfb
    simp [NewImageFromFilewWithDefault, h, hfb]

/-- An open oracle failing both the primary and the fallback path, with
distinguishable errors. -/
def openBothFail : String → Except GoError (Nat × Int × Int) :=
  fun s => if s = "a.png" then .error (.ioError "primary boom")
           else .error (.ioError "fallback boom")

/-- A world whose loads all fail. -/
def bothFailWorld : World :=
  { saveOutcomes := [], mkdirOutcomes := [], resizeFaults := [],
    openResult := openBothFail, writes := [], mkdirs := [] }

/-- Counterexample to C8 as stated: when the primary and the fallback
both fail to load, the surfaced error is the fallback's error, not the
original primary error. -/
theorem c8_fallback_error_counterexample :
    NewImageFromFilewWithDefault genDefault bothFailWorld "a.png" "b.png" =
      .error (.ioError "fallback boom") ∧
    GoError.ioError "fallback boom" ≠ .ioError "primary boom" := by
  exact ⟨rfl, by decide⟩

/-- Witness for C8's amended statement: with no fallback configured, the
original load error is surfaced. -/
theorem c8_fallback_error_witness :
    NewImageFromFilewWithDefault genDefault bothFailWorld "a.png" "" =
      .error (.ioError "primary boom") :=
  (c8_fallback_error genDefault bothFailWorld "a.png" "").2.2
    (.ioError "primary boom") rfl rfl

/-- C5: for every Generate call on a non-empty configured list of
specifications, exactly one result is produced per specification in the
configured order; the result at any position is the successful save
result or — when that specification's resize or save step fails — a
result carrying the image's original source path as both Filename and
Path together with that error, and the remaining specifications are
still processed (the result count equals the list length). -/
theorem c5_per_dimension_results (gen : Generator) (w : World) (img : Image)
    (pre post : List ImageDimension) (d : ImageDimension)
    (hfmt : gen.OutputFormats = pre ++ d :: post) :
    ∃ rs, (Generate gen w img).1 = .ok rs ∧
      rs.length = gen.OutputFormats.length ∧
      rs[pre.length]? = some
        (match GetProcessedImage gen (GenerateLoop gen pre w img).2.2
            (some (GenerateLoop gen pre w img).2.1) d with
         | (.error e, _) => { Filename := img.Path, Path := img.Path, Error := some e }
         | (.ok thumb, w2) =>
           match SaveWithDimension gen w2
               (some { (GenerateLoop gen pre w img).2.1 with ImageData := some thumb })
               (some d) with
           | (.error e, _) => { Filename := img.Path, Path := img.Path, Error := some e }
           | (.ok save, _) => save) := by
  have hne : ¬ gen.OutputFormats.length = 0 := by
    rw [hfmt]
    simp
  refine ⟨(GenerateLoop gen gen.OutputFormats w img).1, ?_,
    genLoop_length gen _ w img, ?_⟩
  · simp [Generate, hne]
  · rw [hfmt, genLoop_append gen pre (d :: post) w img]
    rw [List.getElem?_append_right (by rw [genLoop_length])]
    rw [genLoop_length]
    simp only [Nat.sub_self]
    simp only [GenerateLoop]
    rcases hg : GetProcessedImage gen (GenerateLoop gen pre w img).2.2
        (some (GenerateLoop gen pre w img).2.1) d with ⟨r1, w1⟩
    cases r1 with
    | error e => simp [hg, genLoop_path]
    | ok thumb =>
      rcases hs : SaveWithDimension gen w1
          (some { (GenerateLoop gen pre w img).2.1 with ImageData := some thumb })
          (some d) with ⟨r2, w2⟩
      simp only at hs
      cases r2 with
      | error e =>
        simp [hg, hs]
        simp [genLoop_path]
      | ok save => simp [hg, hs]

/-- Witness for C5 at a concrete one-specification generator. -/
theorem c5_per_dimension_results_witness :
    ∃ rs, (Generate genOneFormat benignWorld imgC).1 = .ok rs ∧
      rs.length = genOneFormat.OutputFormats.length ∧
      rs[(0 : Nat)]? = some
        (match GetProcessedImage genOneFormat
            (GenerateLoop genOneFormat [] benignWorld imgC).2.2
            (some (GenerateLoop genOneFormat [] benignWorld imgC).2.1)
            { Percentage := 1 } with
         | (.error e, _) => { Filename := imgC.Path, Path := imgC.Path, Error := some e }
         | (.ok thumb, w2) =>
           match SaveWithDimension genOneFormat w2
               (some { (GenerateLoop genOneFormat [] benignWorld imgC).2.1 with
                        ImageData := some thumb })
               (some { Percentage := 1 }) with
           | (.error e, _) => { Filename := imgC.Path, Path := imgC.Path, Error := some e }
           | (.ok save, _) => save) :=
  c5_per_dimension_results genOneFormat benignWorld imgC [] [] { Percentage := 1 } rfl

/-- C7: in a Generate call, after each successful resize the working
image's pixel data is replaced in place by the resized pixels: the
resized value is a resize of (and differs from) the previous pixel data,
the remaining specifications are processed on the image carrying the
resized data rather than the original source pixels, and the image coming
out of the loop no longer holds the original pixel data. -/
theorem c7_destructive_pixel_chaining (gen : Generator) (w : World) (img : Image)
    (data : ImageData) (d : ImageDimension) (rest : List ImageDimension)
    (thumb : ImageData) (w1 : World)
    (hdata : img.ImageData = some data)
    (hg : GetProcessedImage gen w (some img) d = (.ok thumb, w1)) :
    (∃ opt, thumb = ImageData.resized data opt) ∧
    thumb ≠ data ∧
    (GenerateLoop gen (d :: rest) w img =
      (match SaveWithDimension gen w1
          (some { img with ImageData := some thumb }) (some d) with
       | (.error e, w2) =>
         ({ Filename := img.Path, Path := img.Path, Error := some e } ::
            (GenerateLoop gen rest w2 { img with ImageData := some thumb }).1,
          (GenerateLoop gen rest w2 { img with ImageData := some thumb }).2)
       | (.ok save, w2) =>
         (save :: (GenerateLoop gen rest w2 { img with ImageData := some thumb }).1,
          (GenerateLoop gen rest w2 { img with ImageData := some thumb }).2))) ∧
    (GenerateLoop gen (d :: rest) w img).2.1.ImageData ≠ some data := by
  obtain ⟨img0, data0, opt, hi, hdata0, ht⟩ :=
    createThumbnail_ok_inv w (some img) d thumb w1 hg
  injection hi with hi
  subst hi
  rw [hdata] at hdata0
  injection hdata0 with hdata0
  subst hdata0
  refine ⟨⟨opt, ht⟩, by rw [ht]; exact resized_ne data opt, ?_, ?_⟩
  · simp only [GenerateLoop]
    rcases hs : SaveWithDimension gen w1
        (some { img with ImageData := some thumb }) (some d) with ⟨r2, w2⟩
    cases r2 with
    | error e => simp [hg, hs]
    | ok save => simp [hg, hs]
  · simp only [GenerateLoop]
    rcases hs : SaveWithDimension gen w1
        (some { img with ImageData := some thumb }) (some d) with ⟨r2, w2⟩
    have hd := genLoop_depth gen rest w2 { img with ImageData := some thumb }
    cases r2 with
    | error e =>
      simp only [hg, hs]
      intro hfe
      rw [hfe] at hd
      rw [ht] at hd
      simp [optDepth, dataDepth] at hd
    | ok save =>
      simp only [hg, hs]
      intro hfe
      rw [hfe] at hd
      rw [ht] at hd
      simp [optDepth, dataDepth] at hd

/-- Witness for C7: after a successful one-specification Generate loop on
a concrete image, the working image no longer holds its original pixel
data. -/
theorem c7_destructive_pixel_chaining_witness :
    (GenerateLoop genDefault [{ Percentage := 1 }] benignWorld imgC).2.1.ImageData ≠
      some (.src 0) :=
  (c7_destructive_pixel_chaining genDefault benignWorld imgC (.src 0)
    { Percentage := 1 } [] (.resized (.src 0) { percent := 1 }) benignWorld
    rfl rfl).2.2.2

end GoThumb
